import Mathlib

/-!
Verification of the VCFClean pipeline (VCFClean.py).

Shallow embedding of the VCF-cleaning pipeline: encoding normalization,
printable-character sanitization, record segmentation (`load_vcf`),
per-record validation (`VcfValidator.validate`), classification and
file writing (`save_vcf_with_errors`, `extract_invalid_contacts`).

External capabilities (the `chardet`-based decoding, the `vobject`
record parser and serializer) are parameters of the embedding, as the
specification scopes them out of the core. The filesystem is an explicit
map from path to optional content.
-/

set_option autoImplicit false

/-- Membership in Python's `string.printable`: ASCII codes 32..126
(digits, letters, punctuation, space) together with the whitespace
characters TAB, LF, VT, FF, CR (codes 9..13). Used by
`remove_non_printable` (VCFClean.py line 28). -/
def isPrintable (c : Char) : Bool :=
  (32 ≤ c.toNat && c.toNat ≤ 126) || (9 ≤ c.toNat && c.toNat ≤ 13)

/-- The per-character transformation of VCFClean.py line 28:
`char if char in string.printable else '?'`. -/
def sanitizeChar (c : Char) : Char :=
  if isPrintable c then c else '?'

/-- The content transformation performed by `remove_non_printable`
(VCFClean.py lines 25-31): every character outside `string.printable`
is replaced by `'?'`; all other characters are kept. -/
def sanitize (s : String) : String :=
  ⟨s.data.map sanitizeChar⟩

/-- Python whitespace (`str.isspace` / the `re` class `\s` on `str`):
TAB LF VT FF CR, the information separators 28..31, SPACE, NEL (133),
NBSP (160), and the Unicode space characters. -/
def isPySpace (c : Char) : Bool :=
  (9 ≤ c.toNat && c.toNat ≤ 13) || (28 ≤ c.toNat && c.toNat ≤ 32) ||
  c.toNat = 133 || c.toNat = 160 || c.toNat = 0x1680 ||
  (0x2000 ≤ c.toNat && c.toNat ≤ 0x200a) ||
  c.toNat = 0x2028 || c.toNat = 0x2029 || c.toNat = 0x202f ||
  c.toNat = 0x205f || c.toNat = 0x3000

/-- Python's `str.strip()` with no argument: remove leading and trailing
whitespace characters (VCFClean.py line 73). -/
def pyStrip (s : String) : String :=
  ⟨(((s.data.dropWhile isPySpace).reverse).dropWhile isPySpace).reverse⟩

/-- Membership in the character class of `VcfValidator.INVALID_CHARS`,
the regex `[<>|:*?"\\/]` (VCFClean.py line 35). -/
def isInvalidNameChar (c : Char) : Bool :=
  c == '<' || c == '>' || c == '|' || c == ':' || c == '*' ||
  c == '?' || c == '"' || c == '\\' || c == '/'

/-- Membership in the character class `[+0-9\s\-\(\)]` of the phone
regex (VCFClean.py line 58): `+`, ASCII digits, Python whitespace,
`-`, `(`, `)`. -/
def isPhoneChar (c : Char) : Bool :=
  c == '+' || (('0' ≤ c) && (c ≤ '9')) || isPySpace c ||
  c == '-' || c == '(' || c == ')'

/-- The Boolean of `re.match(r'^[+0-9\s\-\(\)]+$', s)` (VCFClean.py
line 58). Since `\n` itself belongs to the class, the `$` anchor's
tolerance of one final newline changes nothing, and the match succeeds
exactly when `s` is non-empty and every character lies in the class. -/
def phoneMatch (s : String) : Bool :=
  !s.data.isEmpty && s.data.all isPhoneChar

/-- A parsed contact as the validator sees it: the duck-typed `vobject`
component is reduced to the three fields the program reads. `fn = none`
models `not hasattr(contact, 'fn')`; `tel` and `email` hold the values
of `tel_list` / `email_list` (absent field ⟺ empty list). -/
structure Record where
  fn : Option String
  tel : List String
  email : List String
deriving DecidableEq

/-- Method `VcfValidator.validate` (VCFClean.py lines 37-62): the four checks
in order, each contributing its messages to the returned error list. -/
def VcfValidator.validate (contact : Record) : List String :=
  (match contact.fn with
   | none => ["Missing full name"]
   | some s => if s.isEmpty then ["Missing full name"] else []) ++
  (match contact.fn with
   | none => []
   | some s => if s.data.any isInvalidNameChar then
       ["Invalid characters in name: " ++ s] else []) ++
  (if !(!contact.tel.isEmpty || !contact.email.isEmpty) then
     ["Missing phone and/or email"] else []) ++
  (if !contact.tel.isEmpty then
     contact.tel.filterMap (fun t =>
       if phoneMatch t then none else some ("Invalid phone format: " ++ t))
   else [])

/-- Test that `marker.data` is an initial segment of the line's characters:
the character-level reading of Python's `str.startswith`. -/
def charsBegins : List Char → List Char → Bool
  | [], _ => true
  | _ :: _, [] => false
  | m :: ms, c :: cs => m == c && charsBegins ms cs

/-- Python's `line.startswith(marker)` (VCFClean.py lines 75 and 78). -/
def lineBegins (line marker : String) : Bool :=
  charsBegins marker.data line.data

/-- The begin-marker of a record block. -/
def beginMarker : String := "BEGIN:VCARD"

/-- The end-marker of a record block. -/
def endMarker : String := "END:VCARD"

/-- Python's `"\n".join(buffer)` (VCFClean.py line 80). -/
def joinNL : List String → String
  | [] => ""
  | [s] => s
  | s :: rest => s ++ "\n" ++ joinNL rest

/-- The body of the `load_vcf` line loop (VCFClean.py lines 72-91) with
the buffer `current_vcard` explicit: returns the records emitted from
the given lines, starting from the given buffer; an incomplete buffer
left at end of input emits nothing. `parse` is the external
`vobject.readOne` capability (success or parse failure). -/
def loadAux (parse : String → Option Record) :
    List String → List String → List Record
  | _, [] => []
  | buf, l :: ls =>
    if lineBegins (pyStrip l) beginMarker then
      loadAux parse [pyStrip l] ls
    else if lineBegins (pyStrip l) endMarker then
      match parse (joinNL (buf ++ [pyStrip l])) with
      | some r => r :: loadAux parse [] ls
      | none => loadAux parse [] ls
    else if buf.isEmpty then
      loadAux parse buf ls
    else
      loadAux parse (buf ++ [pyStrip l]) ls

/-- The buffer (`current_vcard`) left after the `load_vcf` loop has
consumed the given lines, starting from the given buffer. -/
def bufAfter : List String → List String → List String
  | buf, [] => buf
  | buf, l :: ls =>
    if lineBegins (pyStrip l) beginMarker then
      bufAfter [pyStrip l] ls
    else if lineBegins (pyStrip l) endMarker then
      bufAfter [] ls
    else if buf.isEmpty then
      bufAfter buf ls
    else
      bufAfter (buf ++ [pyStrip l]) ls

/-- Function `load_vcf` (VCFClean.py lines 64-94) on the lines of the file:
segmentation starting from an empty buffer. -/
def load_vcf (parse : String → Option Record) (lines : List String) :
    List Record :=
  loadAux parse [] lines

/-- Splitting of file content into the lines Python's file iteration
yields (terminators `\n`, `\r\n`, `\r`; terminator characters dropped,
as `strip()` would discard them anyway). -/
def splitLinesAux : List Char → List Char → List (List Char)
  | acc, [] => [acc.reverse]
  | acc, '\r' :: '\n' :: rest => acc.reverse :: splitLinesAux [] rest
  | acc, '\n' :: rest => acc.reverse :: splitLinesAux [] rest
  | acc, '\r' :: rest => acc.reverse :: splitLinesAux [] rest
  | acc, c :: rest => splitLinesAux (c :: acc) rest

/-- The list of lines of a file's content: Python yields no final empty
line when the content is empty or ends with a terminator. -/
def splitLines (s : String) : List String :=
  let ls := splitLinesAux [] s.data
  let ls := match ls.getLast? with
    | some [] => ls.dropLast
    | _ => ls
  ls.map (fun cs => ⟨cs⟩)

/-- The classification loop of `extract_invalid_contacts` (VCFClean.py
lines 139-150): each contact goes to the invalid list paired with its
errors when `validate` returned any, else to the valid list paired with
`[]`; input order is kept within each list. -/
def classifyLoop : List Record →
    List (Record × List String) × List (Record × List String)
  | [] => ([], [])
  | c :: cs =>
    let errors := VcfValidator.validate c
    let rest := classifyLoop cs
    if !errors.isEmpty then (rest.1, (c, errors) :: rest.2)
    else ((c, []) :: rest.1, rest.2)

/-- The text written to `invalid_explanations.txt` (VCFClean.py lines
143-148): per invalid contact, a `Contact:` label line (full name when
the field exists, else `Unknown`), one indented line per error, and a
blank separator line. -/
def reportText (invalid : List (Record × List String)) : String :=
  String.join (invalid.map (fun ce =>
    "Contact: " ++ (match ce.1.fn with | some s => s | none => "Unknown") ++ "\n" ++
    String.join (ce.2.map (fun e => "  - " ++ e ++ "\n")) ++ "\n"))

/-- The filesystem: each path maps to the content of the file there, or
to `none` when no file exists at that path. -/
def FS : Type := String → Option String

/-- Creating or truncating the file at `p` with content `c`
(Python `open(p, "w")` followed by writing `c`). -/
def fsWrite (fs : FS) (p : String) (c : String) : FS :=
  fun q => if q = p then some c else fs q

/-- Deletion of the file at `p` (`os.remove(p)`). -/
def fsRemove (fs : FS) (p : String) : FS :=
  fun q => if q = p then none else fs q

/-- Function `convert_to_utf8` (VCFClean.py lines 16-23): reads the input file
and writes its decoded content to the output file. The net effect of
encoding detection plus decoding-with-replacement is the external
parameter `decode`; a missing input file is the fatal I/O case. -/
def convert_to_utf8 (decode : String → String) (input_file output_file : String)
    (fs : FS) : Option FS :=
  match fs input_file with
  | none => none
  | some content => some (fsWrite fs output_file (decode content))

/-- Function `remove_non_printable` (VCFClean.py lines 25-31): reads the input
file and writes its sanitized content to the output file. -/
def remove_non_printable (input_file output_file : String) (fs : FS) :
    Option FS :=
  match fs input_file with
  | none => none
  | some content => some (fsWrite fs output_file (sanitize content))

/-- Function `save_vcf_with_errors` (VCFClean.py lines 96-112): with no contacts
the function returns at once and the filesystem is untouched; otherwise
the target file is written with the concatenation of the serializations
that succeed and are not blank. `serialize` is the external
`contact.serialize()` capability (`none` models a raised exception). -/
def save_vcf_with_errors (serialize : Record → Option String)
    (contacts : List (Record × List String)) (file_path : String)
    (fs : FS) : FS :=
  if contacts.isEmpty then fs
  else
    fsWrite fs file_path (String.join (contacts.filterMap (fun ce =>
      match serialize ce.1 with
      | some s => if (pyStrip s).isEmpty then none else some s
      | none => none)))

/-- Steps 4-6 of `extract_invalid_contacts` (VCFClean.py lines 134-160),
taken when at least one contact was loaded: classify (writing the
explanation report), save both buckets, and remove the two temporary
files. -/
def extractRest (serialize : Record → Option String)
    (valid_vcf invalid_vcf : String) (fs2 : FS) (contacts : List Record) : FS :=
  let vi := classifyLoop contacts
  let fs3 := fsWrite fs2 "invalid_explanations.txt" (reportText vi.2)
  let fs4 := save_vcf_with_errors serialize vi.1 valid_vcf fs3
  let fs5 := save_vcf_with_errors serialize vi.2 invalid_vcf fs4
  fsRemove (fsRemove fs5 "temp_utf8.vcf") "temp_cleaned.vcf"

/-- Function `extract_invalid_contacts` (VCFClean.py lines 114-163): convert to
UTF-8 into `temp_utf8.vcf`, sanitize into `temp_cleaned.vcf`, segment,
return early when no contacts were loaded, else classify, save and
clean up (`extractRest`). `none` is the fatal I/O case. -/
def extract_invalid_contacts (decode : String → String)
    (parse : String → Option Record) (serialize : Record → Option String)
    (input_vcf valid_vcf invalid_vcf : String) (fs : FS) : Option FS :=
  match convert_to_utf8 decode input_vcf "temp_utf8.vcf" fs with
  | none => none
  | some fs1 =>
    match remove_non_printable "temp_utf8.vcf" "temp_cleaned.vcf" fs1 with
    | none => none
    | some fs2 =>
      match fs2 "temp_cleaned.vcf" with
      | none => none
      | some content =>
        let contacts := load_vcf parse (splitLines content)
        if contacts.isEmpty then some fs2
        else some (extractRest serialize valid_vcf invalid_vcf fs2 contacts)

/-- Follows the words of claim C4 (not the source): a one-or-more-character
string consisting only of digits, spaces, `+`, `-`, `(` and `)`. -/
def claimPhoneCharsOnly (s : String) : Bool :=
  !s.data.isEmpty && s.data.all (fun c =>
    c.isDigit || c == ' ' || c == '+' || c == '-' || c == '(' || c == ')')

/-- Modelled from the spec: the record-format parser is an external
capability (`parse_record(text) -> Fields | ParseError`, `vobject.readOne`
in the source — not code of this repository). By the spec's glossary a
record block is "contiguous lines between a begin-marker line and its
matching end-marker line", so a block whose text does not start with the
begin-marker is not a well-formed record block and fails parsing. -/
def parserRejectsMarkerless (parse : String → Option Record) : Prop :=
  ∀ s, lineBegins s beginMarker = false → parse s = none

/-- Concrete record used by the C6 witness. -/
def janeRecord : Record := ⟨some "Jane Doe", ["+1 555-1234"], []⟩

/-- Concrete parser capability used by the C6 witness. -/
def c6parse : String → Option Record := fun s =>
  if s = "BEGIN:VCARD\nFN:Jane Doe\nTEL:+1 555-1234\nEND:VCARD" then
    some janeRecord else none

/-- Concrete record used by the C8 witness. -/
def boRecord : Record := ⟨some "Bo", [], []⟩

/-- Concrete parser capability used by the C8 witness. -/
def c8parse : String → Option Record := fun s =>
  if s = "BEGIN:VCARD\nFN:Bo\nEND:VCARD" then some boRecord else none

/-- Concrete record used by the C9 witness. -/
def c9rec : Record := ⟨none, [], []⟩

/-- Concrete parser capability used by the C9 witness. -/
def c9parse : String → Option Record := fun s =>
  if s = "BEGIN:VCARD\nEND:VCARD" then some c9rec else none

/-- Concrete filesystem used by the C2 theorem: a single empty input file. -/
def c2fs : FS := fun p => if p = "in.vcf" then some "" else none

/-- Concrete filesystem used by the C7 witness: a single empty input file. -/
def c7fs : FS := fun p => if p = "in.vcf" then some "" else none

/-- Concrete parser capability used by the C10 witness. -/
def c10parse : String → Option Record := fun s =>
  if s = "BEGIN:VCARD\nEND:VCARD" then some ⟨none, [], []⟩ else none

/-- Concrete filesystem used by the C10 witness: one input file holding a
single block that parses to a record with no name, phone or email. -/
def c10fs : FS := fun p =>
  if p = "in.vcf" then some "BEGIN:VCARD\nEND:VCARD" else none

/-! ## Theorems -/

theorem sanitizeChar_idem (c : Char) : sanitizeChar (sanitizeChar c) = sanitizeChar c := by
  unfold sanitizeChar
  by_cases h : isPrintable c = true
  · simp [h]
  · simp [h]

/-- C5: the printable sanitizer is idempotent: sanitizing text that has
already been sanitized returns it unchanged, since every character of a
sanitized text (including the `?` placeholder) is printable. -/
theorem c5_sanitize_idempotent (x : String) : sanitize (sanitize x) = sanitize x := by
  unfold sanitize
  congr 1
  rw [List.map_map]
  exact List.map_congr_left (fun c _ => sanitizeChar_idem c)

/-- C3: a record whose full-name field is absent or empty and which has
no telephone and no email value fails exactly the name-presence rule and
the contactability rule, in that order. -/
theorem c3_missing_name_and_contact (c : Record)
    (hfn : c.fn = none ∨ c.fn = some "") (htel : c.tel = [])
    (hemail : c.email = []) :
    VcfValidator.validate c = ["Missing full name", "Missing phone and/or email"] := by
  unfold VcfValidator.validate
  rcases hfn with h | h <;> rw [h, htel, hemail] <;> decide

theorem c3_witness :
    ((Record.mk none [] []).fn = none ∨ (Record.mk none [] []).fn = some "") ∧
    (Record.mk none [] []).tel = [] ∧ (Record.mk none [] []).email = [] ∧
    VcfValidator.validate (Record.mk none [] []) =
      ["Missing full name", "Missing phone and/or email"] :=
  ⟨Or.inl rfl, rfl, rfl,
    c3_missing_name_and_contact (Record.mk none [] []) (Or.inl rfl) rfl rfl⟩

theorem string_append_left_inj (pre s t : String)
    (h : pre ++ s = pre ++ t) : s = t := by
  obtain ⟨sd⟩ := s
  obtain ⟨td⟩ := t
  have h2 := congrArg String.data h
  rw [String.data_append, String.data_append] at h2
  have h3 := List.append_cancel_left h2
  exact congrArg String.mk h3

theorem fullname_msg_ne_phone_msg (t : String) :
    "Missing full name" ≠ ("Invalid phone format: " ++ t) := by
  intro h
  obtain ⟨td⟩ := t
  have h2 := congrArg (fun x : String => x.data.get? 0) h
  have h3 : (some 'M' : Option Char) = some 'I' := h2
  exact absurd h3 (by decide)

theorem name_msg_ne_phone_msg (s t : String) :
    ("Invalid characters in name: " ++ s) ≠ ("Invalid phone format: " ++ t) := by
  intro h
  obtain ⟨sd⟩ := s
  obtain ⟨td⟩ := t
  have h2 := congrArg (fun x : String => x.data.get? 8) h
  have h3 : (some 'c' : Option Char) = some 'p' := h2
  exact absurd h3 (by decide)

theorem contact_msg_ne_phone_msg (t : String) :
    "Missing phone and/or email" ≠ ("Invalid phone format: " ++ t) := by
  intro h
  obtain ⟨td⟩ := t
  have h2 := congrArg (fun x : String => x.data.get? 0) h
  have h3 : (some 'M' : Option Char) = some 'I' := h2
  exact absurd h3 (by decide)

theorem count_phoneMsgs (t : String) (l : List String) :
    (l.filterMap (fun v => if phoneMatch v then none
        else some ("Invalid phone format: " ++ v))).count ("Invalid phone format: " ++ t)
      = (l.filter (fun v => v == t && !phoneMatch v)).length := by
  induction l with
  | nil => rfl
  | cons v vs ih =>
    by_cases hp : phoneMatch v = true
    · simp [List.filterMap_cons, List.filter_cons, hp, ih]
    · rw [Bool.not_eq_true] at hp
      by_cases hv : v = t
      · subst hv
        simp [List.filterMap_cons, List.filter_cons, hp, List.count_cons, ih]
      · have hmsg : ("Invalid phone format: " ++ v) ≠ ("Invalid phone format: " ++ t) :=
          fun h => hv (string_append_left_inj _ _ _ h)
        simp [List.filterMap_cons, List.filter_cons, hp, List.count_cons, ih, hv, hmsg]

/-- C4, counterexample: the claim's character set (digits, spaces, `+`,
`-`, `(`, `)`) rejects the telephone value consisting of a single TAB,
so the claim demands a phone-format violation message for it; but the
code's regex class contains `\s`, which matches TAB, so `validate`
returns no message at all for this record. -/
theorem c4_counterexample :
    claimPhoneCharsOnly "\t" = false ∧
    (Record.mk (some "Ann") ["\t"] []).tel ≠ [] ∧
    VcfValidator.validate (Record.mk (some "Ann") ["\t"] []) = [] :=
  ⟨by decide, by decide, by decide⟩

/-- C4, amended: for every record, each telephone value occurrence that
is not a one-or-more-character string of characters from the class
"digits, whitespace (`\s`), `+`, `-`, `(`, `)`" contributes exactly one
violation message naming that value, and occurrences made up solely of
those characters contribute none: the number of occurrences of the
message `Invalid phone format: t` in the validation result equals the
number of occurrences of `t` among the record's offending telephone
values. -/
theorem c4_phone_format_amended (c : Record) (t : String) :
    (VcfValidator.validate c).count ("Invalid phone format: " ++ t)
      = (c.tel.filter (fun v => v == t && !phoneMatch v)).length := by
  unfold VcfValidator.validate
  rw [List.count_append, List.count_append, List.count_append]
  have hb1 : ("Missing full name" == ("Invalid phone format: " ++ t)) = false :=
    beq_eq_false_iff_ne.mpr (fullname_msg_ne_phone_msg t)
  have hb3 : ("Missing phone and/or email" == ("Invalid phone format: " ++ t)) = false :=
    beq_eq_false_iff_ne.mpr (contact_msg_ne_phone_msg t)
  have h1 : (match c.fn with
      | none => ["Missing full name"]
      | some s => if s.isEmpty then ["Missing full name"] else []).count
        ("Invalid phone format: " ++ t) = 0 := by
    cases c.fn with
    | none => simp [List.count_cons, hb1]
    | some s =>
      by_cases hs : s.isEmpty <;> simp [hs, List.count_cons, hb1]
  have h2 : (match c.fn with
      | none => []
      | some s => if s.data.any isInvalidNameChar then
          ["Invalid characters in name: " ++ s] else []).count
        ("Invalid phone format: " ++ t) = 0 := by
    cases c.fn with
    | none => rfl
    | some s =>
      have hb2 : (("Invalid characters in name: " ++ s) ==
          ("Invalid phone format: " ++ t)) = false :=
        beq_eq_false_iff_ne.mpr (name_msg_ne_phone_msg s t)
      by_cases hs : s.data.any isInvalidNameChar <;>
        simp [hs, List.count_cons, hb2]
  have h3 : (if !(!c.tel.isEmpty || !c.email.isEmpty) then
      ["Missing phone and/or email"] else []).count
        ("Invalid phone format: " ++ t) = 0 := by
    by_cases hc : (!(!c.tel.isEmpty || !c.email.isEmpty)) = true <;>
      simp [hc, List.count_cons, hb3]
  rw [h1, h2, h3]
  by_cases htel : c.tel.isEmpty
  · have : c.tel = [] := List.isEmpty_iff.mp htel
    simp [this]
  · simp only [htel, Bool.not_false, if_pos]
    simpa using count_phoneMsgs t c.tel

theorem classify_fst_valid (l : List Record) :
    (classifyLoop l).1.map Prod.fst
      = l.filter (fun c => (VcfValidator.validate c).isEmpty) := by
  induction l with
  | nil => rfl
  | cons c cs ih =>
    simp only [classifyLoop, List.filter_cons]
    by_cases h : (VcfValidator.validate c).isEmpty <;> simp [h, ih]

theorem classify_fst_invalid (l : List Record) :
    (classifyLoop l).2.map Prod.fst
      = l.filter (fun c => !(VcfValidator.validate c).isEmpty) := by
  induction l with
  | nil => rfl
  | cons c cs ih =>
    simp only [classifyLoop, List.filter_cons]
    by_cases h : (VcfValidator.validate c).isEmpty <;> simp [h, ih]

theorem classify_valid_mem (l : List Record) :
    ∀ p ∈ (classifyLoop l).1, p.2 = [] ∧ VcfValidator.validate p.1 = [] := by
  induction l with
  | nil => intro p hp; cases hp
  | cons c cs ih =>
    intro p hp
    simp only [classifyLoop] at hp
    by_cases h : (VcfValidator.validate c).isEmpty = true
    · simp only [h, Bool.not_true] at hp
      rw [if_neg (by simp)] at hp
      rcases List.mem_cons.mp hp with h2 | h2
      · subst h2
        exact ⟨rfl, List.isEmpty_iff.mp h⟩
      · exact ih p h2
    · rw [Bool.not_eq_true] at h
      simp only [h, Bool.not_false] at hp
      rw [if_pos trivial] at hp
      exact ih p hp

theorem classify_invalid_mem (l : List Record) :
    ∀ p ∈ (classifyLoop l).2, p.2 = VcfValidator.validate p.1 ∧ p.2 ≠ [] := by
  induction l with
  | nil => intro p hp; cases hp
  | cons c cs ih =>
    intro p hp
    simp only [classifyLoop] at hp
    by_cases h : (VcfValidator.validate c).isEmpty = true
    · simp only [h, Bool.not_true] at hp
      rw [if_neg (by simp)] at hp
      exact ih p hp
    · rw [Bool.not_eq_true] at h
      simp only [h, Bool.not_false] at hp
      rw [if_pos trivial] at hp
      rcases List.mem_cons.mp hp with h2 | h2
      · subst h2
        refine ⟨rfl, fun he => ?_⟩
        have h3 : VcfValidator.validate c = [] := he
        rw [h3] at h
        exact absurd h (by decide)
      · exact ih p h2

theorem count_filter_split {α : Type} [DecidableEq α] (p : α → Bool)
    (l : List α) (a : α) :
    (l.filter p).count a + (l.filter (fun x => !p x)).count a = l.count a := by
  induction l with
  | nil => rfl
  | cons x xs ih =>
    by_cases h : p x <;>
      simp [List.filter_cons, List.count_cons, h] <;> omega

/-- C1: classification partitions segmentation's output. The first
classified list holds exactly (and in input order) the records whose
validation result is empty, each paired with the empty error list; the
second holds exactly (and in input order) those whose validation result
is non-empty, each paired with that non-empty result; for every record
identity the two lists' occurrence counts sum to its count in the
segmenter's output, and no record belongs to both lists. -/
theorem c1_classification_partition (parse : String → Option Record)
    (lines : List String) :
    ((classifyLoop (load_vcf parse lines)).1.map Prod.fst
        = (load_vcf parse lines).filter (fun c => (VcfValidator.validate c).isEmpty)) ∧
    ((classifyLoop (load_vcf parse lines)).2.map Prod.fst
        = (load_vcf parse lines).filter (fun c => !(VcfValidator.validate c).isEmpty)) ∧
    (∀ r : Record,
      ((classifyLoop (load_vcf parse lines)).1.map Prod.fst).count r
        + ((classifyLoop (load_vcf parse lines)).2.map Prod.fst).count r
        = (load_vcf parse lines).count r) ∧
    (∀ p ∈ (classifyLoop (load_vcf parse lines)).1,
      p.2 = [] ∧ VcfValidator.validate p.1 = []) ∧
    (∀ p ∈ (classifyLoop (load_vcf parse lines)).2,
      p.2 = VcfValidator.validate p.1 ∧ p.2 ≠ []) ∧
    (∀ r : Record, r ∈ (classifyLoop (load_vcf parse lines)).1.map Prod.fst →
      r ∈ (classifyLoop (load_vcf parse lines)).2.map Prod.fst → False) := by
  refine ⟨classify_fst_valid _, classify_fst_invalid _, ?_, classify_valid_mem _,
    classify_invalid_mem _, ?_⟩
  · intro r
    rw [classify_fst_valid, classify_fst_invalid]
    exact count_filter_split _ _ _
  · intro r h1 h2
    rw [classify_fst_valid] at h1
    rw [classify_fst_invalid] at h2
    have p1 := (List.mem_filter.mp h1).2
    have p2 := (List.mem_filter.mp h2).2
    rw [p1] at p2
    exact absurd p2 (by decide)

theorem charsBegins_head_ne (m₁ m₂ : Char) (ms₁ ms₂ cs : List Char)
    (hne : m₂ ≠ m₁) (h : charsBegins (m₁ :: ms₁) cs = true) :
    charsBegins (m₂ :: ms₂) cs = false := by
  cases cs with
  | nil => simp [charsBegins] at h
  | cons c cs' =>
    simp only [charsBegins, Bool.and_eq_true, beq_iff_eq] at h
    have h2 : (m₂ == c) = false := beq_eq_false_iff_ne.mpr (h.1 ▸ hne)
    simp [charsBegins, h2]

theorem end_not_begin (s : String) (h : lineBegins s endMarker = true) :
    lineBegins s beginMarker = false := by
  have h1 : charsBegins ('E' :: "ND:VCARD".data) s.data = true := h
  exact charsBegins_head_ne 'E' 'B' "ND:VCARD".data "EGIN:VCARD".data s.data
    (by decide) h1

theorem loadAux_append (parse : String → Option Record) (xs : List String) :
    ∀ (buf ys : List String),
      loadAux parse buf (xs ++ ys)
        = loadAux parse buf xs ++ loadAux parse (bufAfter buf xs) ys := by
  induction xs with
  | nil => intro buf ys; simp [loadAux, bufAfter]
  | cons l ls ih =>
    intro buf ys
    simp only [List.cons_append, loadAux, bufAfter]
    by_cases hb : lineBegins (pyStrip l) beginMarker
    · simp [hb, ih]
    · by_cases he : lineBegins (pyStrip l) endMarker
      · simp only [hb, he, Bool.false_eq_true, if_false, if_true]
        cases hp : parse (joinNL (buf ++ [pyStrip l])) with
        | some r => simp [hb, he, hp, ih]
        | none => simp [hb, he, hp, ih]
      · by_cases hbe : buf.isEmpty
        · simp [hb, he, hbe, ih]
        · simp [hb, he, hbe, ih]

theorem loadAux_neutral (parse : String → Option Record) :
    ∀ ls : List String,
      (∀ l ∈ ls, lineBegins (pyStrip l) beginMarker = false
          ∧ lineBegins (pyStrip l) endMarker = false) →
      ∀ buf, buf ≠ [] →
        loadAux parse buf ls = [] ∧ bufAfter buf ls = buf ++ ls.map pyStrip := by
  intro ls
  induction ls with
  | nil => intro _ buf _; simp [loadAux, bufAfter]
  | cons l ls ih =>
    intro h buf hbuf
    have hl := h l (List.mem_cons_self l ls)
    have hrest := fun x hx => h x (List.mem_cons_of_mem l hx)
    have hbe : buf.isEmpty = false := by
      cases buf with
      | nil => exact absurd rfl hbuf
      | cons b bs => rfl
    have ih2 := ih hrest (buf ++ [pyStrip l]) (by simp)
    constructor
    · simp only [loadAux, hl.1, hl.2, hbe, Bool.false_eq_true, if_false]
      exact ih2.1
    · simp only [bufAfter, hl.1, hl.2, hbe, Bool.false_eq_true, if_false]
      rw [ih2.2]
      simp

/-- C8: a line beginning with the begin-marker restarts capture: whatever
buffer was open before it (in particular an unterminated block built
during `pre`) is discarded without emitting a record, and scanning
continues with the buffer holding just the new stripped begin-marker
line — the final output never depends on the abandoned buffer. -/
theorem c8_begin_restarts_capture (parse : String → Option Record)
    (pre : List String) (l : String) (post : List String)
    (hb : lineBegins (pyStrip l) beginMarker = true) :
    load_vcf parse (pre ++ l :: post)
      = load_vcf parse pre ++ loadAux parse [pyStrip l] post := by
  unfold load_vcf
  rw [loadAux_append]
  congr 1
  simp [loadAux, hb]

theorem c8_witness :
    lineBegins (pyStrip "BEGIN:VCARD") beginMarker = true ∧
    load_vcf c8parse
        (["BEGIN:VCARD", "FN:Ann"] ++ "BEGIN:VCARD" :: ["FN:Bo", "END:VCARD"])
      = load_vcf c8parse ["BEGIN:VCARD", "FN:Ann"]
        ++ loadAux c8parse [pyStrip "BEGIN:VCARD"] ["FN:Bo", "END:VCARD"] :=
  ⟨by decide, c8_begin_restarts_capture c8parse ["BEGIN:VCARD", "FN:Ann"]
    "BEGIN:VCARD" ["FN:Bo", "END:VCARD"] (by decide)⟩

/-- C9: a line beginning with the end-marker met while no block is open
(empty buffer) contributes no record: the single-line block it closes
fails parsing — the external parser rejects any block that does not
start with the begin-marker — so it is discarded, scanning continues,
and the output is exactly what the surrounding lines produce. -/
theorem c9_stray_end_no_record (parse : String → Option Record)
    (hparse : parserRejectsMarkerless parse)
    (pre : List String) (l : String) (post : List String)
    (hout : bufAfter [] pre = [])
    (he : lineBegins (pyStrip l) endMarker = true) :
    load_vcf parse (pre ++ l :: post)
      = load_vcf parse pre ++ load_vcf parse post := by
  unfold load_vcf
  rw [loadAux_append, hout]
  congr 1
  have hnb := end_not_begin _ he
  have hp : parse (joinNL [pyStrip l]) = none :=
    hparse _ (end_not_begin _ he)
  simp [loadAux, hnb, he, hp]

theorem c9_witness :
    parserRejectsMarkerless c9parse ∧
    bufAfter [] ["BEGIN:VCARD", "END:VCARD"] = [] ∧
    lineBegins (pyStrip "END:VCARD") endMarker = true ∧
    load_vcf c9parse (["BEGIN:VCARD", "END:VCARD"] ++ "END:VCARD" :: [])
      = load_vcf c9parse ["BEGIN:VCARD", "END:VCARD"] ++ load_vcf c9parse [] := by
  have hparse : parserRejectsMarkerless c9parse := by
    intro s hs
    by_cases h : s = "BEGIN:VCARD\nEND:VCARD"
    · rw [h] at hs
      exact absurd hs (by decide)
    · simp [c9parse, h]
  exact ⟨hparse, by decide, by decide,
    c9_stray_end_no_record c9parse hparse ["BEGIN:VCARD", "END:VCARD"]
      "END:VCARD" [] (by decide) (by decide)⟩

/-- C6: an input made of one well-formed block (begin line, interior
lines free of markers, end line, block text accepted by the parser)
followed by a block that opens with a begin-marker line but never meets
an end-marker line yields exactly the one record of the well-formed
block; the trailing incomplete buffer is discarded without emitting a
record, and segmentation is total (it does not fail). -/
theorem c6_malformed_block_resilience (parse : String → Option Record)
    (b e b2 : String) (mid rest : List String) (r : Record)
    (hb : lineBegins (pyStrip b) beginMarker = true)
    (he : lineBegins (pyStrip e) endMarker = true)
    (hmid : ∀ l ∈ mid, lineBegins (pyStrip l) beginMarker = false
        ∧ lineBegins (pyStrip l) endMarker = false)
    (hb2 : lineBegins (pyStrip b2) beginMarker = true)
    (hrest : ∀ l ∈ rest, lineBegins (pyStrip l) beginMarker = false
        ∧ lineBegins (pyStrip l) endMarker = false)
    (hparse : parse (joinNL (pyStrip b :: (mid.map pyStrip ++ [pyStrip e])))
        = some r) :
    load_vcf parse ((b :: (mid ++ [e])) ++ b2 :: rest) = [r] := by
  unfold load_vcf
  rw [loadAux_append]
  have hA : loadAux parse [] (b :: (mid ++ [e])) = [r] := by
    simp only [loadAux, hb, if_true]
    rw [loadAux_append]
    have hn := loadAux_neutral parse mid hmid [pyStrip b] (by simp)
    rw [hn.1, hn.2]
    have hnb := end_not_begin _ he
    simp only [loadAux, hnb, he, Bool.false_eq_true, if_false, if_true,
      List.nil_append]
    have harg : ([pyStrip b] ++ mid.map pyStrip) ++ [pyStrip e]
        = pyStrip b :: (mid.map pyStrip ++ [pyStrip e]) := by simp
    rw [harg, hparse]
  have hB : loadAux parse (bufAfter [] (b :: (mid ++ [e]))) (b2 :: rest) = [] := by
    have hn := loadAux_neutral parse rest hrest [pyStrip b2] (by simp)
    simp [loadAux, hb2, hn.1]
  rw [hA, hB, List.append_nil]

theorem c6_witness :
    lineBegins (pyStrip "BEGIN:VCARD") beginMarker = true ∧
    lineBegins (pyStrip "END:VCARD") endMarker = true ∧
    (∀ l ∈ ["FN:Jane Doe", "TEL:+1 555-1234"],
      lineBegins (pyStrip l) beginMarker = false
        ∧ lineBegins (pyStrip l) endMarker = false) ∧
    (∀ l ∈ ["FN:Bob"], lineBegins (pyStrip l) beginMarker = false
        ∧ lineBegins (pyStrip l) endMarker = false) ∧
    c6parse (joinNL (pyStrip "BEGIN:VCARD" ::
        (["FN:Jane Doe", "TEL:+1 555-1234"].map pyStrip ++ [pyStrip "END:VCARD"])))
      = some janeRecord ∧
    load_vcf c6parse
        (("BEGIN:VCARD" :: (["FN:Jane Doe", "TEL:+1 555-1234"] ++ ["END:VCARD"]))
          ++ "BEGIN:VCARD" :: ["FN:Bob"]) = [janeRecord] :=
  ⟨by decide, by decide, by decide, by decide, by decide,
    c6_malformed_block_resilience c6parse "BEGIN:VCARD" "END:VCARD" "BEGIN:VCARD"
      ["FN:Jane Doe", "TEL:+1 555-1234"] ["FN:Bob"] janeRecord
      (by decide) (by decide) (by decide) (by decide) (by decide) (by decide)⟩

theorem extract_unfold (decode : String → String) (parse : String → Option Record)
    (serialize : Record → Option String)
    (input_vcf valid_vcf invalid_vcf : String) (fs : FS) (c : String)
    (hin : fs input_vcf = some c) :
    extract_invalid_contacts decode parse serialize input_vcf valid_vcf
        invalid_vcf fs
      = (if (load_vcf parse (splitLines (sanitize (decode c)))).isEmpty then
          some (fsWrite (fsWrite fs "temp_utf8.vcf" (decode c))
            "temp_cleaned.vcf" (sanitize (decode c)))
        else
          some (extractRest serialize valid_vcf invalid_vcf
            (fsWrite (fsWrite fs "temp_utf8.vcf" (decode c))
              "temp_cleaned.vcf" (sanitize (decode c)))
            (load_vcf parse (splitLines (sanitize (decode c)))))) := by
  unfold extract_invalid_contacts convert_to_utf8 remove_non_printable
  rw [hin]
  rfl

/-- C2 fails on the code: on an input from which zero records are
segmented, `extract_invalid_contacts` returns before its cleanup step,
so the run succeeds while both `temp_utf8.vcf` and `temp_cleaned.vcf`
still exist (here with content `""`); no output file was written. -/
theorem c2_temp_files_remain :
    (extract_invalid_contacts (fun s => s) (fun _ => none) (fun _ => none)
        "in.vcf" "valid.vcf" "invalid.vcf" c2fs).map
      (fun fsFinal => (fsFinal "temp_utf8.vcf", fsFinal "temp_cleaned.vcf",
        fsFinal "valid.vcf", fsFinal "invalid.vcf",
        fsFinal "invalid_explanations.txt"))
      = some (some "", some "", none, none, none) := by
  decide

/-- C7: when segmentation yields zero records the pipeline succeeds
(returns a final state rather than the fatal-I/O `none`) after the early
diagnostic return, and no path other than the two temporary files is
touched — in particular the valid-records file, the invalid-records
file and the diagnostics report are not written. -/
theorem c7_empty_input_no_outputs (decode : String → String)
    (parse : String → Option Record) (serialize : Record → Option String)
    (input_vcf valid_vcf invalid_vcf : String) (fs : FS) (c : String)
    (hin : fs input_vcf = some c)
    (hempty : load_vcf parse (splitLines (sanitize (decode c))) = []) :
    ∃ fsFinal, extract_invalid_contacts decode parse serialize
        input_vcf valid_vcf invalid_vcf fs = some fsFinal ∧
      ∀ p, p ≠ "temp_utf8.vcf" → p ≠ "temp_cleaned.vcf" → fsFinal p = fs p := by
  rw [extract_unfold decode parse serialize input_vcf valid_vcf invalid_vcf
    fs c hin, hempty]
  refine ⟨_, rfl, ?_⟩
  intro p h1 h2
  simp [fsWrite, h1, h2]

theorem c7_witness :
    c7fs "in.vcf" = some "" ∧
    load_vcf (fun _ => none) (splitLines (sanitize ((fun s => s) ""))) = [] ∧
    (∃ fsFinal, extract_invalid_contacts (fun s => s) (fun _ => none)
        (fun _ => none) "in.vcf" "valid.vcf" "invalid.vcf" c7fs = some fsFinal ∧
      ∀ p, p ≠ "temp_utf8.vcf" → p ≠ "temp_cleaned.vcf" → fsFinal p = c7fs p) :=
  ⟨by decide, by decide,
    c7_empty_input_no_outputs (fun s => s) (fun _ => none) (fun _ => none)
      "in.vcf" "valid.vcf" "invalid.vcf" c7fs "" (by decide) (by decide)⟩

theorem save_vcf_frame (serialize : Record → Option String)
    (contacts : List (Record × List String)) (file_path : String) (fs : FS)
    (q : String) (h : q ≠ file_path) :
    save_vcf_with_errors serialize contacts file_path fs q = fs q := by
  unfold save_vcf_with_errors
  by_cases hc : contacts.isEmpty <;> simp [hc, fsWrite, h]

/-- C10: given an empty sequence of (record, errors) pairs the writer
returns at once and no path of the filesystem changes; consequently a
successful run whose classification produced zero valid records leaves
the valid-records path exactly as it was (provided that path is not one
of the four paths the run does write). -/
theorem c10_save_empty_untouched :
    (∀ (serialize : Record → Option String) (file_path q : String) (fs : FS),
      save_vcf_with_errors serialize [] file_path fs q = fs q) ∧
    (∀ (decode : String → String) (parse : String → Option Record)
        (serialize : Record → Option String)
        (input_vcf valid_vcf invalid_vcf : String) (fs : FS) (c : String),
      fs input_vcf = some c →
      valid_vcf ≠ "temp_utf8.vcf" → valid_vcf ≠ "temp_cleaned.vcf" →
      valid_vcf ≠ "invalid_explanations.txt" → valid_vcf ≠ invalid_vcf →
      (classifyLoop (load_vcf parse (splitLines (sanitize (decode c))))).1 = [] →
      ∃ fsFinal, extract_invalid_contacts decode parse serialize
          input_vcf valid_vcf invalid_vcf fs = some fsFinal
        ∧ fsFinal valid_vcf = fs valid_vcf) := by
  constructor
  · intro serialize file_path q fs
    rfl
  · intro decode parse serialize input_vcf valid_vcf invalid_vcf fs c hin
      h1 h2 h3 h4 hnoval
    rw [extract_unfold decode parse serialize input_vcf valid_vcf invalid_vcf
      fs c hin]
    by_cases hc : (load_vcf parse (splitLines (sanitize (decode c)))).isEmpty
    · rw [if_pos hc]
      exact ⟨_, rfl, by simp [fsWrite, h1, h2]⟩
    · rw [if_neg hc]
      refine ⟨_, rfl, ?_⟩
      unfold extractRest
      have hrem : ∀ fs5 : FS,
          fsRemove (fsRemove fs5 "temp_utf8.vcf") "temp_cleaned.vcf" valid_vcf
            = fs5 valid_vcf := by
        intro fs5
        simp [fsRemove, h1, h2]
      rw [hrem]
      rw [save_vcf_frame _ _ _ _ _ h4]
      rw [hnoval]
      simp [save_vcf_with_errors, fsWrite, h1, h2, h3]

theorem c10_witness :
    c10fs "in.vcf" = some "BEGIN:VCARD\nEND:VCARD" ∧
    ("valid.vcf" : String) ≠ "temp_utf8.vcf" ∧
    ("valid.vcf" : String) ≠ "temp_cleaned.vcf" ∧
    ("valid.vcf" : String) ≠ "invalid_explanations.txt" ∧
    ("valid.vcf" : String) ≠ "invalid.vcf" ∧
    (classifyLoop (load_vcf c10parse
      (splitLines (sanitize ((fun s => s) "BEGIN:VCARD\nEND:VCARD"))))).1 = [] ∧
    (∃ fsFinal, extract_invalid_contacts (fun s => s) c10parse
        (fun _ => some "SERIALIZED") "in.vcf" "valid.vcf" "invalid.vcf" c10fs
          = some fsFinal
      ∧ fsFinal "valid.vcf" = c10fs "valid.vcf") :=
  ⟨by decide, by decide, by decide, by decide, by decide, by decide,
    c10_save_empty_untouched.2 (fun s => s) c10parse (fun _ => some "SERIALIZED")
      "in.vcf" "valid.vcf" "invalid.vcf" c10fs "BEGIN:VCARD\nEND:VCARD"
      (by decide) (by decide) (by decide) (by decide) (by decide) (by decide)⟩
